import Mathlib

/-!
Verification of the injectory injection engine against its specification.

The development shallowly embeds the two source files `src/injectory/process.cpp`
and `src/injectory/module.hpp`. OS calls (the Win32 and native-API surface) are
modelled by explicit environment records holding each call's outcome; pointer
arithmetic on `DWORD_PTR` is carried out on `Nat` modulo `2 ^ 64`.
-/

namespace Injectory

/-- Machine word modulus for `DWORD_PTR` arithmetic (64-bit build). -/
def PTR_MOD : Nat := 2 ^ 64

/-- An on-disk image: its export table maps an export name to an
image-relative offset (RVA). Export addresses are base plus RVA, which is
what makes the probe-copy offset computation of `Module::getProcAddress`
sound. -/
structure Image where
  exports : List (String × Nat)
  deriving DecidableEq

/-- One module instance loaded inside some process: the (normalized) image
name and the load base address. An `HMODULE` is the base address. -/
structure LoadedModule where
  imageName : String
  base : Nat
  deriving DecidableEq

/-- A process as far as module enumeration is concerned: its id and its
loaded-module list. -/
structure ProcState where
  pid : Nat
  modules : List LoadedModule
  deriving DecidableEq

/-- The OS state visible to the current process: the on-disk images by
normalized name, the current process (`Process::current`), the outcome of a
probe `LoadLibraryExW` of a named image (`none` = the load fails, `some b` =
it loads at base `b`), and the thread-local last-error code. -/
structure OS where
  images : List (String × Image)
  current : ProcState
  probeLoad : String → Option Nat
  lastError : Nat

/-- The failure kinds raised by the embedded code, named after §7 of the
specification; each carries the payload the source attaches to the thrown
exception. -/
inductive Failure where
  | ModuleLookupFailure (name : String) (err : Nat)
  | ModuleLoadFailure (name : String) (err : Nat)
  | ProcAddressResolutionFailure (api : String) (exportName : String) (err : Nat)
  | AlreadyInjectedFailure (libPath : String) (pid : Nat)
  | RemoteAllocFailure
  | RemoteWriteFailure
  | CacheFlushFailure
  | ThreadCreateFailure
  | SetPriorityFailure
  | HideFromDebuggerFailure
  | RemoteReadFailure
  | InjectionFailure
  | SuspendResumeFailure (ntStatus : Int)
  | ArchitectureDetectionFailure (text : String) (pid : Option Nat)
  | IsWow64QueryFailure (pid : Nat) (err : Nat)
  deriving DecidableEq

/-- A `Module` value (module.hpp lines 9–27): the owning process's id plus
the handle, which for an `HMODULE` is the module's base address in the
owning process. -/
structure Module where
  imageName : String
  base : Nat
  processPid : Nat
  deriving DecidableEq

/-- OS semantics of `GetProcAddress(handle, name)`: look the image's export
table up and return base plus RVA (reduced modulo the pointer width), or the
null address `0` when the image or the export is unknown. -/
def osGetProcAddress (os : OS) (base : Nat) (imageName : String) (procName : String) : Nat :=
  match os.images.lookup imageName with
  | some img =>
    match img.exports.lookup procName with
    | some rva => (base + rva) % PTR_MOD
    | none => 0
  | none => 0

/-- The `Module(const fs::path&)` constructor (module.hpp lines 34–42):
`GetModuleHandleW` on the current process's module list; on a null handle it
throws with the last-error code. -/
def Module.fromName (os : OS) (name : String) : Except Failure Module :=
  match os.current.modules.find? (fun lm => lm.imageName = name) with
  | some lm => Except.ok ⟨name, lm.base, os.current.pid⟩
  | none => Except.error (Failure.ModuleLookupFailure name os.lastError)

/-- The in-process branch of `Module::getProcAddress` (module.hpp lines
84–96): a direct `GetProcAddress` export-table lookup; a null address either
returns `nullptr` (when `throwing` is false) or raises. -/
def Module.getProcAddressLocal (os : OS) (m : Module) (procName : String)
    (throwing : Bool) : Except Failure Nat :=
  let procAddress := osGetProcAddress os m.base m.imageName procName
  if procAddress = 0 then
    if !throwing then Except.ok 0
    else Except.error (Failure.ProcAddressResolutionFailure "GetProcAddress" procName os.lastError)
  else Except.ok procAddress

/-- The embedding of `Module::getProcAddress` (module.hpp lines 71–97). When the owning
process is not the current one it probe-loads the same on-disk image locally
(`LoadLibraryExW` with `DONT_RESOLVE_DLL_REFERENCES`; with `throwing = false`
a failed load yields the empty module and the null address is returned),
resolves the export in the probe copy, and adds the probe-relative offset to
the remote base with `DWORD_PTR` wrap-around. The source's inner call
`localModule.getProcAddress(procName)` is on a module owned by the current
process, so it takes the in-process branch — and it passes the DEFAULT
`throwing = true`, not the caller's flag. -/
def Module.getProcAddress (os : OS) (m : Module) (procName : String)
    (throwing : Bool) : Except Failure Nat :=
  if m.processPid ≠ os.current.pid then
    match os.probeLoad m.imageName with
    | none =>
      if throwing then Except.error (Failure.ModuleLoadFailure m.imageName os.lastError)
      else Except.ok 0
    | some probeBase =>
      match Module.getProcAddressLocal os ⟨m.imageName, probeBase, os.current.pid⟩ procName true with
      | Except.error e => Except.error e
      | Except.ok addr =>
        let funcOffset := (addr + PTR_MOD - probeBase % PTR_MOD) % PTR_MOD
        Except.ok ((m.base + funcOffset) % PTR_MOD)
  else
    Module.getProcAddressLocal os m procName throwing

/-- The embedding of `ModuleKernel32::isWow64Process` (module.hpp lines 140–149): `osAnswer`
is the outcome of the bound `IsWow64Process` call (`none` = the call itself
failed, `some b` = the OS wrote `b` into the out-parameter). On failure it
throws carrying the process and the last-error code; on success it returns
the NEGATION of the OS's answer. -/
def ModuleKernel32.isWow64Process (procPid : Nat) (osAnswer : Option Bool)
    (lastError : Nat) : Except Failure Bool :=
  match osAnswer with
  | none => Except.error (Failure.IsWow64QueryFailure procPid lastError)
  | some isWow64 => Except.ok (!isWow64)

/-- The embedding of `ModuleNtdll::NT_SUCCESS` (module.hpp lines 193–196): an NT status is a
success iff it is non-negative. -/
def ModuleNtdll.NT_SUCCESS (status : Int) : Bool :=
  status ≥ 0

/-- A library to inject. `path` is `lib.path` (the wide path string written
into the target). `ntFilename` — modelled from the spec: `Library::ntFilename`
lives in the file-path collaborator, not under `src/`; per §4.5 step 1 it is
the library's normalized path, the key under which the target's loaded
modules are enumerated. -/
structure Library where
  path : String
  ntFilename : String
  deriving DecidableEq

/-- Modelled from the spec: `ModuleInjectedW` (the injector-helper
collaborator, not under `src/`) enumerates a process's loaded modules by
normalized path and returns the found module's base address, or the null
value `0` when the library is absent (§4.5 steps 1 and 8). -/
def ModuleInjectedW (proc : ProcState) (ntName : String) : Nat :=
  match proc.modules.find? (fun lm => lm.imageName = ntName) with
  | some lm => lm.base
  | none => 0

/-- The observable cross-process actions that `Process::inject` performs, in
order. `resolveLoader`'s flag records which branch of
`Module::getProcAddress` resolved the loader export: `true` is the direct
in-process branch (the module is owned by the current process), `false` the
probe-copy branch. -/
inductive Event where
  | resolveLoader (direct : Bool) (addr : Nat)
  | checkAlready (found : Bool)
  | alloc (ok : Bool) (size : Nat)
  | writeMem (callOk : Bool) (reported : Nat) (expected : Nat)
  | flushCache (ok : Bool)
  | createThread (startAddr : Nat) (arg : Nat)
  | waitThread (exitCode : Nat)
  | verifyCheck (base : Nat)
  | readMem (ok : Bool)
  | dealloc (addr : Nat)
  deriving DecidableEq

/-- Outcomes of the OS calls `Process::inject` makes, fixed up front: the
current process's OS view (for resolving `LoadLibraryW` in `kernel32`), the
target's module list before and after the remote thread runs, and each
fallible call's result. `allocResult` is `VirtualAllocEx`'s returned address
(`none` = NULL); `writeResult` is `none` when `WriteProcessMemory` itself
fails and `some n` when it reports `n` bytes written; `readDosOk`/`readNtOk`
fold each `ReadProcessMemory` call's success together with its
byte-count check. -/
structure InjectEnv where
  os : OS
  target : ProcState
  allocResult : Option Nat
  writeResult : Option Nat
  flushOk : Bool
  createThreadOk : Bool
  setPriorityOk : Bool
  hideOk : Bool
  exitCode : Nat
  targetAfter : ProcState
  readDosOk : Bool
  readNtOk : Bool

/-- The region of `Process::inject` from the remote write through the end of the function
body (process.cpp lines 76–126): the region in which the remote buffer is
alive. Thread creation, prioritization and debugger-hiding are per §4.2;
`waitForTermination` yields `env.exitCode`. After the wait the module list
is re-enumerated: if the library is present the image headers are read
remotely (failure raises); if absent, only the sentinel exit code `0` raises
`InjectionFailure` — a non-zero exit code falls through and the function
returns normally. -/
def injectAfterAlloc (env : InjectEnv) (lib : Library) (loadLibrary lpLibFileRemote LibPathLen : Nat) :
    Except Failure Unit × List Event :=
  match env.writeResult with
  | none => (Except.error Failure.RemoteWriteFailure, [Event.writeMem false 0 LibPathLen])
  | some NumBytesWritten =>
    if NumBytesWritten ≠ LibPathLen then
      (Except.error Failure.RemoteWriteFailure, [Event.writeMem true NumBytesWritten LibPathLen])
    else
      let ev1 := [Event.writeMem true NumBytesWritten LibPathLen]
      if !env.flushOk then
        (Except.error Failure.CacheFlushFailure, ev1 ++ [Event.flushCache false])
      else
        let ev2 := ev1 ++ [Event.flushCache true]
        if !env.createThreadOk then
          (Except.error Failure.ThreadCreateFailure, ev2)
        else
          let ev3 := ev2 ++ [Event.createThread loadLibrary lpLibFileRemote]
          if !env.setPriorityOk then
            (Except.error Failure.SetPriorityFailure, ev3)
          else if !env.hideOk then
            (Except.error Failure.HideFromDebuggerFailure, ev3)
          else
            let ev4 := ev3 ++ [Event.waitThread env.exitCode]
            let lpInjectedModule := ModuleInjectedW env.targetAfter lib.ntFilename
            let ev5 := ev4 ++ [Event.verifyCheck lpInjectedModule]
            if lpInjectedModule ≠ 0 then
              if !env.readDosOk then
                (Except.error Failure.RemoteReadFailure, ev5 ++ [Event.readMem false])
              else if !env.readNtOk then
                (Except.error Failure.RemoteReadFailure, ev5 ++ [Event.readMem true, Event.readMem false])
              else
                (Except.ok (), ev5 ++ [Event.readMem true, Event.readMem true])
            else if env.exitCode = 0 then
              (Except.error Failure.InjectionFailure, ev5)
            else
              (Except.ok (), ev5)

set_option linter.unusedVariables false in
/-- The embedding of `Process::inject` (process.cpp lines 53–126) on the target process with
id `pid`. The sequence of the source is kept: resolve `LoadLibraryW` in the
CURRENT process's `kernel32` first, then the idempotency check, then the
remote allocation of `(wcslen(path) + 1) * sizeof(wchar_t)` bytes. The
remote buffer is owned by a `shared_ptr` whose deleter calls `VirtualFreeEx`;
that deleter runs on every exit path after the `shared_ptr` is constructed —
including the allocation-failure path, where it is invoked on the null
address. The returned list is the trace of observable actions in order. -/
def Process.inject (pid : Nat) (env : InjectEnv) (lib : Library) (verbose : Bool) :
    Except Failure Unit × List Event :=
  match Module.fromName env.os "kernel32" with
  | Except.error e => (Except.error e, [])
  | Except.ok kernel32dll =>
    match Module.getProcAddress env.os kernel32dll "LoadLibraryW" true with
    | Except.error e => (Except.error e, [])
    | Except.ok loadLibrary =>
      let ev0 := [Event.resolveLoader (decide (kernel32dll.processPid = env.os.current.pid)) loadLibrary]
      if ModuleInjectedW env.target lib.ntFilename ≠ 0 then
        (Except.error (Failure.AlreadyInjectedFailure lib.path pid),
         ev0 ++ [Event.checkAlready true])
      else
        let ev1 := ev0 ++ [Event.checkAlready false]
        let LibPathLen := (lib.path.length + 1) * 2
        match env.allocResult with
        | none =>
          (Except.error Failure.RemoteAllocFailure,
           ev1 ++ [Event.alloc false LibPathLen, Event.dealloc 0])
        | some lpLibFileRemote =>
          let body := injectAfterAlloc env lib loadLibrary lpLibFileRemote LibPathLen
          (body.fst, ev1 ++ [Event.alloc true LibPathLen] ++ body.snd ++ [Event.dealloc lpLibFileRemote])

/-- Outcomes of the OS calls `Process::suspend` makes: the current process's
OS view (for resolving the two native-API exports in `ntdll`) and the
NTSTATUS each native call would return on this process's handle. -/
structure SuspendEnv where
  os : OS
  suspendStatus : Int
  resumeStatus : Int

/-- The embedding of `Process::suspend` (process.cpp lines 37–51): resolve `NtSuspendProcess`
or `NtResumeProcess` in the current process's `ntdll`, call it on the
process handle, and raise `SuspendResumeFailure` carrying the raw NTSTATUS
unless `NT_SUCCESS` holds. The second component lists the native calls made
as (API name, handle) pairs. -/
def Process.suspend (env : SuspendEnv) (procHandle : Nat) (doSuspend : Bool) :
    Except Failure Unit × List (String × Nat) :=
  match Module.fromName env.os "ntdll" with
  | Except.error e => (Except.error e, [])
  | Except.ok ntDll =>
    let apiName := if doSuspend then "NtSuspendProcess" else "NtResumeProcess"
    match Module.getProcAddress env.os ntDll apiName true with
    | Except.error e => (Except.error e, [])
    | Except.ok _ =>
      let ntStatus := if doSuspend then env.suspendStatus else env.resumeStatus
      if !ModuleNtdll.NT_SUCCESS ntStatus then
        (Except.error (Failure.SuspendResumeFailure ntStatus), [(apiName, procHandle)])
      else
        (Except.ok (), [(apiName, procHandle)])

/-- The winnt.h constant `PROCESSOR_ARCHITECTURE_AMD64`. -/
def PROCESSOR_ARCHITECTURE_AMD64 : Nat := 9

/-- The winnt.h constant `PROCESSOR_ARCHITECTURE_INTEL`. -/
def PROCESSOR_ARCHITECTURE_INTEL : Nat := 0

/-- Outcomes of the OS calls `Process::is64bit` makes.
`processorArchitecture` — modelled from the spec: `MyGetSystemInfo` (the
injector-helper collaborator, not under `src/`) reads system architecture
info into a `SYSTEM_INFO`; this field is its `wProcessorArchitecture`.
`isWow64Result` is the outcome of calling the resolved `IsWow64Process` on
this process's handle: `none` = the call fails, `some b` = it writes `b`. -/
structure Is64Env where
  os : OS
  processorArchitecture : Nat
  isWow64Result : Option Bool

/-- The embedding of `Process::is64bit` (process.cpp lines 128–156). On a 64-bit host it
resolves `IsWow64Process` in the current process's `kernel32`, queries this
process, and returns the inverted answer; a failing query raises. On an x86
host it returns `false` without querying. Any other architecture raises,
carrying the pid. The second component records whether the WOW64 query was
made. -/
def Process.is64bit (pid : Nat) (env : Is64Env) : Except Failure Bool × Bool :=
  if env.processorArchitecture = PROCESSOR_ARCHITECTURE_AMD64 then
    match Module.fromName env.os "kernel32" with
    | Except.error e => (Except.error e, false)
    | Except.ok kernel32dll =>
      match Module.getProcAddress env.os kernel32dll "IsWow64Process" true with
      | Except.error e => (Except.error e, false)
      | Except.ok _ =>
        match env.isWow64Result with
        | none => (Except.error (Failure.ArchitectureDetectionFailure "IsWow64Process failed" none), true)
        | some bIsWow64 => (Except.ok (!bIsWow64), true)
  else if env.processorArchitecture = PROCESSOR_ARCHITECTURE_INTEL then
    (Except.ok false, false)
  else
    (Except.error (Failure.ArchitectureDetectionFailure "failed to determine whether x86 or x64" (some pid)), false)

/-- Is the event an allocation attempt? -/
def Event.isAllocAttempt : Event → Bool
  | Event.alloc _ _ => true
  | _ => false

/-- Is the event a successful allocation? -/
def Event.isAllocSuccess : Event → Bool
  | Event.alloc ok _ => ok
  | _ => false

/-- Is the event a deallocation attempt (a `VirtualFreeEx` call)? -/
def Event.isDealloc : Event → Bool
  | Event.dealloc _ => true
  | _ => false

/-- Is the event a remote thread creation? -/
def Event.isCreateThread : Event → Bool
  | Event.createThread _ _ => true
  | _ => false

/-- Number of allocation attempts in a trace. -/
def countAllocAttempts (evs : List Event) : Nat :=
  evs.countP Event.isAllocAttempt

/-- Number of successful allocations in a trace. -/
def countAllocSuccesses (evs : List Event) : Nat :=
  evs.countP Event.isAllocSuccess

/-- Number of deallocation attempts in a trace. -/
def countDeallocs (evs : List Event) : Nat :=
  evs.countP Event.isDealloc

/-- Number of remote thread creations in a trace. -/
def countCreateThreads (evs : List Event) : Nat :=
  evs.countP Event.isCreateThread

/-- A concrete OS fixture: the current process (pid 1) has `kernel32`,
`ntdll` and `testlib` loaded; probe loads succeed for `testlib` only; the
last-error code is 5. -/
def osFix : OS :=
  ⟨[("kernel32", ⟨[("LoadLibraryW", 256), ("IsWow64Process", 512)]⟩),
    ("ntdll", ⟨[("NtSuspendProcess", 16), ("NtResumeProcess", 32)]⟩),
    ("testlib", ⟨[("proc", 64)]⟩)],
   ⟨1, [⟨"kernel32", 4096⟩, ⟨"ntdll", 8192⟩, ⟨"testlib", 12288⟩]⟩,
   fun s => if s = "testlib" then some 65536 else none,
   5⟩

/-- Decidable equality on `Except`, for evaluating the embedded operations
on concrete inputs. -/
instance {ε α : Type} [DecidableEq ε] [DecidableEq α] : DecidableEq (Except ε α) :=
  fun a b =>
    match a, b with
    | Except.ok x, Except.ok y =>
      if h : x = y then isTrue (by rw [h]) else isFalse (by intro hh; cases hh; exact h rfl)
    | Except.error x, Except.error y =>
      if h : x = y then isTrue (by rw [h]) else isFalse (by intro hh; cases hh; exact h rfl)
    | Except.ok _, Except.error _ => isFalse (by intro hh; cases hh)
    | Except.error _, Except.ok _ => isFalse (by intro hh; cases hh)

/-- Claim C4: for every module loaded in the current process and every
export name that resolves, the direct in-process `Module::getProcAddress`
returns the same address as the probe-copy computation (export address in
the probe copy minus the probe copy's base, added to the module's recorded
base) applied to that same module treated as if it were remote. -/
theorem getProcAddress_direct_eq_probeCopy
    (os : OS) (m : Module) (procName : String) (img : Image) (rva probeBase qid : Nat)
    (hcur : m.processPid = os.current.pid)
    (himg : os.images.lookup m.imageName = some img)
    (hexp : img.exports.lookup procName = some rva)
    (hdir : (m.base + rva) % PTR_MOD ≠ 0)
    (hprobe : os.probeLoad m.imageName = some probeBase)
    (hfit : probeBase + rva < PTR_MOD)
    (hnz : probeBase + rva ≠ 0)
    (hq : qid ≠ os.current.pid) :
    Module.getProcAddress os m procName true =
      Module.getProcAddress os ⟨m.imageName, m.base, qid⟩ procName true := by
  have hpb : probeBase % PTR_MOD = probeBase := Nat.mod_eq_of_lt (by omega)
  have hsum : (probeBase + rva) % PTR_MOD = probeBase + rva := Nat.mod_eq_of_lt hfit
  have hoff : (probeBase + rva + PTR_MOD - probeBase % PTR_MOD) % PTR_MOD = rva := by
    rw [hpb]
    have h1 : probeBase + rva + PTR_MOD - probeBase = rva + PTR_MOD := by omega
    rw [h1, Nat.add_mod_right, Nat.mod_eq_of_lt (by omega)]
  have hosm : osGetProcAddress os m.base m.imageName procName = (m.base + rva) % PTR_MOD := by
    simp only [osGetProcAddress, himg, hexp]
  have hosp : osGetProcAddress os probeBase m.imageName procName = probeBase + rva := by
    simp only [osGetProcAddress, himg, hexp, hsum]
  have hlocL : Module.getProcAddressLocal os m procName true =
      Except.ok ((m.base + rva) % PTR_MOD) := by
    simp only [Module.getProcAddressLocal, hosm, if_neg hdir]
  have hlocP : Module.getProcAddressLocal os ⟨m.imageName, probeBase, os.current.pid⟩ procName true =
      Except.ok (probeBase + rva) := by
    simp only [Module.getProcAddressLocal, hosp]
    rw [if_neg hnz]
  have hLHS : Module.getProcAddress os m procName true =
      Except.ok ((m.base + rva) % PTR_MOD) := by
    unfold Module.getProcAddress
    rw [if_neg (show ¬ m.processPid ≠ os.current.pid from by simp [hcur])]
    exact hlocL
  have hRHS : Module.getProcAddress os ⟨m.imageName, m.base, qid⟩ procName true =
      Except.ok ((m.base + rva) % PTR_MOD) := by
    unfold Module.getProcAddress
    rw [if_pos (show (⟨m.imageName, m.base, qid⟩ : Module).processPid ≠ os.current.pid from hq)]
    simp only [hprobe, hlocP, hoff]
  rw [hLHS, hRHS]

/-- Claim C4 witness: on the concrete fixture, the current-process module
`testlib` resolves `proc` to the same address through both paths. -/
theorem getProcAddress_direct_eq_probeCopy_witness :
    Module.getProcAddress osFix ⟨"testlib", 12288, 1⟩ "proc" true =
      Module.getProcAddress osFix ⟨"testlib", 12288, 7⟩ "proc" true :=
  getProcAddress_direct_eq_probeCopy osFix ⟨"testlib", 12288, 1⟩ "proc"
    ⟨[("proc", 64)]⟩ 64 65536 7 rfl rfl rfl (by decide) rfl (by decide) (by decide) (by decide)

/-- Claim C6 counterexample: `Module::getProcAddress` with `throwing = false`
CAN raise. On the concrete fixture, for a module owned by a foreign process
(pid 7) whose probe copy loads successfully but lacks the export, the call
raises `ProcAddressResolutionFailure` instead of returning the null
address: the inner resolution inside the probe copy uses the default
`throwing = true`, not the caller's flag. -/
theorem getProcAddress_nonthrowing_raises_on_missing_export :
    Module.getProcAddress osFix ⟨"testlib", 30000, 7⟩ "missing" false =
      Except.error (Failure.ProcAddressResolutionFailure "GetProcAddress" "missing" 5) := by
  rfl

/-- Claim C6 as amended: with `throwing = false`, `Module::getProcAddress`
returns the null address when the direct in-process lookup fails or when the
probe-copy load of a foreign-process module fails; but when the probe copy
loads successfully and the export is absent from it, the call still raises
`ProcAddressResolutionFailure`, because the inner probe-copy resolution uses
the default throwing mode. -/
theorem getProcAddress_nonthrowing_behavior (os : OS) (m : Module) (procName : String) :
    (m.processPid = os.current.pid →
      osGetProcAddress os m.base m.imageName procName = 0 →
      Module.getProcAddress os m procName false = Except.ok 0) ∧
    (m.processPid ≠ os.current.pid →
      os.probeLoad m.imageName = none →
      Module.getProcAddress os m procName false = Except.ok 0) ∧
    (∀ probeBase, m.processPid ≠ os.current.pid →
      os.probeLoad m.imageName = some probeBase →
      osGetProcAddress os probeBase m.imageName procName = 0 →
      Module.getProcAddress os m procName false =
        Except.error (Failure.ProcAddressResolutionFailure "GetProcAddress" procName os.lastError)) := by
  refine ⟨fun hcur hnull => ?_, fun hrem hload => ?_, fun probeBase hrem hload hnull => ?_⟩
  · simp only [Module.getProcAddress, Module.getProcAddressLocal, hcur, hnull,
      ne_eq, not_true_eq_false, if_false, ite_false, if_pos rfl]
    simp
  · simp only [Module.getProcAddress, if_pos hrem, hload]
    simp
  · simp only [Module.getProcAddress, Module.getProcAddressLocal, if_pos hrem, hload, hnull]
    simp

/-- Claim C6 (amended) witness: on the concrete fixture, the three branches
are exercised at concrete inputs — a current-process module with an absent
export yields the null address, a foreign module whose probe load fails
yields the null address, and a foreign module with a loadable probe copy but
absent export raises. -/
theorem getProcAddress_nonthrowing_behavior_witness :
    Module.getProcAddress osFix ⟨"testlib", 12288, 1⟩ "missing" false = Except.ok 0 ∧
    Module.getProcAddress osFix ⟨"ghost", 4096, 7⟩ "proc" false = Except.ok 0 ∧
    Module.getProcAddress osFix ⟨"testlib", 30000, 7⟩ "missing" false =
      Except.error (Failure.ProcAddressResolutionFailure "GetProcAddress" "missing" 5) :=
  ⟨(getProcAddress_nonthrowing_behavior osFix ⟨"testlib", 12288, 1⟩ "missing").1 rfl (by rfl),
   (getProcAddress_nonthrowing_behavior osFix ⟨"ghost", 4096, 7⟩ "proc").2.1 (by decide) (by rfl),
   (getProcAddress_nonthrowing_behavior osFix ⟨"testlib", 30000, 7⟩ "missing").2.2 65536 (by decide) (by rfl) (by rfl)⟩

/-- Claim C10: `ModuleKernel32::isWow64Process` returns the negation of the
OS's WOW64 answer — `true` exactly when the OS reports the process is NOT
running under the 32-bit compatibility subsystem — and raises carrying the
process identity and the OS error code when the underlying call itself
fails. -/
theorem isWow64Process_negates_os_answer (procPid lastError : Nat) :
    (∀ b, ModuleKernel32.isWow64Process procPid (some b) lastError = Except.ok (!b)) ∧
    ModuleKernel32.isWow64Process procPid none lastError =
      Except.error (Failure.IsWow64QueryFailure procPid lastError) :=
  ⟨fun _ => rfl, rfl⟩

/-- The NT status convention, negated: `!NT_SUCCESS(status)` holds exactly
when the status is negative. -/
theorem NT_SUCCESS_negation_iff (s : Int) : (!ModuleNtdll.NT_SUCCESS s) = true ↔ s < 0 := by
  simp [ModuleNtdll.NT_SUCCESS]

/-- Claim C7: `Process::suspend(true)` invokes the native suspend call and
`Process::suspend(false)` the native resume call on the process handle; a
negative NT status raises `SuspendResumeFailure` carrying exactly that raw
status, a non-negative status returns normally. -/
theorem suspend_invokes_native_and_checks_status
    (env : SuspendEnv) (procHandle : Nat) (doSuspend : Bool) (ntDll : Module) (addr : Nat)
    (hnt : Module.fromName env.os "ntdll" = Except.ok ntDll)
    (hres : Module.getProcAddress env.os ntDll
      (if doSuspend then "NtSuspendProcess" else "NtResumeProcess") true = Except.ok addr) :
    Process.suspend env procHandle doSuspend =
      (if (if doSuspend then env.suspendStatus else env.resumeStatus) < 0 then
         Except.error (Failure.SuspendResumeFailure (if doSuspend then env.suspendStatus else env.resumeStatus))
       else Except.ok (),
       [((if doSuspend then "NtSuspendProcess" else "NtResumeProcess"), procHandle)]) := by
  simp only [Process.suspend, hnt, hres]
  by_cases hlt : (if doSuspend then env.suspendStatus else env.resumeStatus) < 0
  · rw [if_pos ((NT_SUCCESS_negation_iff _).mpr hlt), if_pos hlt]
  · rw [if_neg (fun hc => hlt ((NT_SUCCESS_negation_iff _).mp hc)), if_neg hlt]

/-- Claim C7 witness: on a concrete environment whose suspend status is the
failing `-1073741790` and whose resume status is `0`, suspending raises
`SuspendResumeFailure (-1073741790)` via the `NtSuspendProcess` call. -/
theorem suspend_invokes_native_and_checks_status_witness :
    Process.suspend ⟨osFix, -1073741790, 0⟩ 42 true =
      (Except.error (Failure.SuspendResumeFailure (-1073741790)), [("NtSuspendProcess", 42)]) := by
  have h := suspend_invokes_native_and_checks_status ⟨osFix, -1073741790, 0⟩ 42 true
    ⟨"ntdll", 8192, 1⟩ 8208 (by rfl) (by rfl)
  simpa using h

/-- Claim C8: `Process::is64bit` on a 64-bit host returns the inversion of
the WOW64 answer for this process (raising when the query call fails), on an
x86 host returns `false` without querying, and raises
`ArchitectureDetectionFailure` on any other architecture. -/
theorem is64bit_cases (pid : Nat) (env : Is64Env) (k32 : Module) (addr : Nat)
    (hk : Module.fromName env.os "kernel32" = Except.ok k32)
    (hres : Module.getProcAddress env.os k32 "IsWow64Process" true = Except.ok addr) :
    (env.processorArchitecture = PROCESSOR_ARCHITECTURE_AMD64 →
      (∀ b, env.isWow64Result = some b → Process.is64bit pid env = (Except.ok (!b), true)) ∧
      (env.isWow64Result = none → Process.is64bit pid env =
        (Except.error (Failure.ArchitectureDetectionFailure "IsWow64Process failed" none), true))) ∧
    (env.processorArchitecture = PROCESSOR_ARCHITECTURE_INTEL →
      Process.is64bit pid env = (Except.ok false, false)) ∧
    (env.processorArchitecture ≠ PROCESSOR_ARCHITECTURE_AMD64 →
     env.processorArchitecture ≠ PROCESSOR_ARCHITECTURE_INTEL →
      Process.is64bit pid env =
        (Except.error (Failure.ArchitectureDetectionFailure "failed to determine whether x86 or x64" (some pid)), false)) := by
  refine ⟨fun hamd => ⟨fun b hb => ?_, fun hnone => ?_⟩, fun hintel => ?_, fun hne1 hne2 => ?_⟩
  · simp only [Process.is64bit, hamd, hk, hres, hb]
    simp
  · simp only [Process.is64bit, hamd, hk, hres, hnone]
    simp
  · simp only [Process.is64bit, hintel, PROCESSOR_ARCHITECTURE_AMD64,
      PROCESSOR_ARCHITECTURE_INTEL]
    simp
  · simp only [Process.is64bit, if_neg hne1, if_neg hne2]

/-- Claim C8 witness: on the concrete fixture with an AMD64 host whose WOW64
query answers `true` (a 32-bit process), `is64bit` returns `false` after
querying. -/
theorem is64bit_cases_witness :
    Process.is64bit 9 ⟨osFix, 9, some true⟩ = (Except.ok false, true) :=
  ((is64bit_cases 9 ⟨osFix, 9, some true⟩ ⟨"kernel32", 4096, 1⟩ 4608
    (by rfl) (by rfl)).1 rfl).1 true rfl

/-- A module produced by the `GetModuleHandleW` constructor is owned by the
current process. -/
theorem fromName_pid (os : OS) (n : String) (m : Module)
    (h : Module.fromName os n = Except.ok m) : m.processPid = os.current.pid := by
  unfold Module.fromName at h
  cases hf : os.current.modules.find? (fun lm => lm.imageName = n) with
  | none => rw [hf] at h; cases h
  | some lm => rw [hf] at h; cases h; rfl

/-- The post-allocation region of `inject` performs no allocation of its
own. -/
theorem injectAfterAlloc_no_alloc (env : InjectEnv) (lib : Library)
    (loadLibrary buf len : Nat) :
    countAllocAttempts (injectAfterAlloc env lib loadLibrary buf len).snd = 0 := by
  unfold injectAfterAlloc
  repeat' split
  all_goals try simp [countAllocAttempts, Event.isAllocAttempt]
  all_goals (split <;> simp [Event.isAllocAttempt])

/-- The post-allocation region of `inject` performs no deallocation of its
own: the buffer's release belongs to the enclosing scope. -/
theorem injectAfterAlloc_no_dealloc (env : InjectEnv) (lib : Library)
    (loadLibrary buf len : Nat) :
    countDeallocs (injectAfterAlloc env lib loadLibrary buf len).snd = 0 := by
  unfold injectAfterAlloc
  repeat' split
  all_goals try simp [countDeallocs, Event.isDealloc]
  all_goals (split <;> simp [Event.isDealloc])

/-- Any thread the post-allocation region creates starts at the resolved
loader address with the remote buffer as its argument. -/
theorem injectAfterAlloc_thread_start (env : InjectEnv) (lib : Library)
    (loadLibrary buf len : Nat) :
    ∀ s a, Event.createThread s a ∈ (injectAfterAlloc env lib loadLibrary buf len).snd →
      s = loadLibrary ∧ a = buf := by
  intro s a h
  unfold injectAfterAlloc at h
  repeat' split at h
  all_goals try simp_all
  all_goals (split at h <;> simp_all)

/-- Once the remote write reports the exact expected byte count, the
instruction-cache flush is attempted: a `flushCache` event carrying the
flush outcome is in the post-allocation trace. -/
theorem injectAfterAlloc_flush_attempted (env : InjectEnv) (lib : Library)
    (loadLibrary buf len : Nat) (hwrite : env.writeResult = some len) :
    Event.flushCache env.flushOk ∈ (injectAfterAlloc env lib loadLibrary buf len).snd := by
  unfold injectAfterAlloc
  rw [hwrite]
  repeat' split
  all_goals try simp_all
  all_goals (split <;> simp_all)

/-- The library fixture: the path written into the target and its
normalized name (14 characters, so the remote buffer size is 30 bytes). -/
def libFix : Library :=
  ⟨"C:\\testlib.dll", "testlib.dll"⟩

/-- Injection environment for a run that goes end to end: the target (pid 2)
does not yet contain the library, allocation yields address 90000, the write
reports all 30 bytes, every OS call succeeds, the remote thread exits with
code 1, and afterwards the library is loaded at base 70000. -/
def envRun : InjectEnv :=
  ⟨osFix, ⟨2, []⟩, some 90000, some 30, true, true, true, true, 1,
   ⟨2, [⟨"testlib.dll", 70000⟩]⟩, true, true⟩

/-- Like `envRun`, but the library is already present in the target before
the call. -/
def envAlready : InjectEnv :=
  ⟨osFix, ⟨2, [⟨"testlib.dll", 70000⟩]⟩, some 90000, some 30, true, true, true, true, 1,
   ⟨2, [⟨"testlib.dll", 70000⟩]⟩, true, true⟩

/-- Like `envRun`, but the library is still absent after the remote thread
exits (with the non-sentinel exit code 1). -/
def envAbsentAfter : InjectEnv :=
  ⟨osFix, ⟨2, []⟩, some 90000, some 30, true, true, true, true, 1, ⟨2, []⟩, true, true⟩

/-- Like `envAbsentAfter`, but the remote thread exits with the sentinel
failure code 0. -/
def envExitZero : InjectEnv :=
  ⟨osFix, ⟨2, []⟩, some 90000, some 30, true, true, true, true, 0, ⟨2, []⟩, true, true⟩

/-- Like `envRun`, but `VirtualAllocEx` fails (returns the null address). -/
def envNoAlloc : InjectEnv :=
  ⟨osFix, ⟨2, []⟩, none, some 30, true, true, true, true, 1,
   ⟨2, [⟨"testlib.dll", 70000⟩]⟩, true, true⟩

/-- Like `envRun`, but `WriteProcessMemory` reports only 10 of the 30
bytes. -/
def envShortWrite : InjectEnv :=
  ⟨osFix, ⟨2, []⟩, some 90000, some 10, true, true, true, true, 1, ⟨2, []⟩, true, true⟩

/-- Claim C1: if the library is already present in the target's
loaded-module list by normalized path when `Process::inject` is called,
inject fails with `AlreadyInjectedFailure` carrying the library path and the
target pid, and performs no remote allocation and creates no remote
thread. -/
theorem inject_alreadyPresent_fails_without_alloc_or_thread
    (pid : Nat) (env : InjectEnv) (lib : Library) (verbose : Bool)
    (k32 : Module) (addr : Nat)
    (hk : Module.fromName env.os "kernel32" = Except.ok k32)
    (hres : Module.getProcAddress env.os k32 "LoadLibraryW" true = Except.ok addr)
    (hpresent : ModuleInjectedW env.target lib.ntFilename ≠ 0) :
    (Process.inject pid env lib verbose).fst =
      Except.error (Failure.AlreadyInjectedFailure lib.path pid) ∧
    countAllocAttempts (Process.inject pid env lib verbose).snd = 0 ∧
    countCreateThreads (Process.inject pid env lib verbose).snd = 0 := by
  simp only [Process.inject, hk, hres, if_pos hpresent]
  refine ⟨?_, ?_, ?_⟩ <;>
    simp [countAllocAttempts, countCreateThreads, Event.isAllocAttempt, Event.isCreateThread]

/-- Claim C1 witness: on the concrete fixture where `testlib.dll` is already
loaded in the target, inject fails with `AlreadyInjectedFailure` and the
trace has no allocation and no thread creation. -/
theorem inject_alreadyPresent_witness :
    (Process.inject 2 envAlready libFix false).fst =
      Except.error (Failure.AlreadyInjectedFailure libFix.path 2) ∧
    countAllocAttempts (Process.inject 2 envAlready libFix false).snd = 0 ∧
    countCreateThreads (Process.inject 2 envAlready libFix false).snd = 0 :=
  inject_alreadyPresent_fails_without_alloc_or_thread 2 envAlready libFix false
    ⟨"kernel32", 4096, 1⟩ 4352 (by rfl) (by rfl) (by decide)

/-- Claim C2 counterexample: a concrete run in which the library is absent
from the target after the wait and the thread exit code is the non-sentinel
value 1 — yet `inject` returns success, contradicting the claim that an
absent library with a non-sentinel exit code still yields a failure. -/
theorem inject_absent_nonzero_exit_succeeds :
    (Process.inject 2 envAbsentAfter libFix false).fst = Except.ok () ∧
    ModuleInjectedW envAbsentAfter.targetAfter libFix.ntFilename = 0 ∧
    envAbsentAfter.exitCode ≠ 0 := by
  refine ⟨?_, ?_, ?_⟩
  · rfl
  · rfl
  · decide

/-- Claim C2 as amended: after waiting for the remote thread, if the library
is not found in the target's module list, then inject raises
`InjectionFailure` exactly when the captured exit code is the sentinel
failure value 0; with a non-sentinel exit code, inject returns normally
(the non-zero exit code — the loader's return value — is taken as evidence
of a successful load). -/
theorem inject_verify_absent_exitCode
    (pid : Nat) (env : InjectEnv) (lib : Library) (verbose : Bool)
    (k32 : Module) (addr buf : Nat)
    (hk : Module.fromName env.os "kernel32" = Except.ok k32)
    (hres : Module.getProcAddress env.os k32 "LoadLibraryW" true = Except.ok addr)
    (hnot : ModuleInjectedW env.target lib.ntFilename = 0)
    (halloc : env.allocResult = some buf)
    (hwrite : env.writeResult = some ((lib.path.length + 1) * 2))
    (hflush : env.flushOk = true)
    (hct : env.createThreadOk = true)
    (hsp : env.setPriorityOk = true)
    (hhide : env.hideOk = true)
    (habsent : ModuleInjectedW env.targetAfter lib.ntFilename = 0) :
    (Process.inject pid env lib verbose).fst =
      (if env.exitCode = 0 then Except.error Failure.InjectionFailure else Except.ok ()) := by
  simp only [Process.inject, hk, hres, hnot, halloc, ne_eq, not_true_eq_false,
    if_false, ite_false, not_false_iff]
  simp only [injectAfterAlloc, hwrite, hflush, hct, hsp, hhide, habsent, ne_eq,
    not_true_eq_false, if_false, ite_false, Bool.not_true, if_neg (by decide : ¬False)]
  by_cases hec : env.exitCode = 0 <;> simp [hec]

/-- Claim C2 (amended) witness: on the concrete fixture where the library is
absent after the wait and the exit code is the sentinel 0, inject raises
`InjectionFailure`. -/
theorem inject_verify_absent_exitCode_witness :
    (Process.inject 2 envExitZero libFix false).fst =
      Except.error Failure.InjectionFailure := by
  have h := inject_verify_absent_exitCode 2 envExitZero libFix false
    ⟨"kernel32", 4096, 1⟩ 4352 90000 (by rfl) (by rfl) (by rfl) (by rfl) (by rfl)
    rfl rfl rfl rfl (by rfl)
  simpa using h

/-- Claim C3 counterexample: the full trace of a concrete successful run.
The loader export is resolved FIRST (index 0), via the direct in-process
branch (`true` flag) on the current process's `kernel32` — not as step 5 and
not via the cross-process probe-copy path; the idempotency check follows at
index 1, allocation, write and flush after it. -/
theorem inject_trace_resolution_precedes_check :
    (Process.inject 2 envRun libFix false).snd =
      [Event.resolveLoader true 4352, Event.checkAlready false, Event.alloc true 30,
       Event.writeMem true 30 30, Event.flushCache true, Event.createThread 4352 90000,
       Event.waitThread 1, Event.verifyCheck 70000, Event.readMem true, Event.readMem true,
       Event.dealloc 90000] := by
  rfl

/-- Claim C3 as amended: in every execution of `Process::inject`, the
resolution of the loader export is the FIRST observable action (when any
action happens at all), it uses the direct in-process branch of
`Module::getProcAddress` on the current process's `kernel32`, and every
remote thread created in the run starts at that locally resolved address
(the code relies on `kernel32` sharing its base address across processes). -/
theorem inject_resolves_loader_first_inProcess
    (pid : Nat) (env : InjectEnv) (lib : Library) (verbose : Bool) :
    (Process.inject pid env lib verbose).snd = [] ∨
    ∃ a, ((Process.inject pid env lib verbose).snd).head? =
        some (Event.resolveLoader true a) ∧
      ∀ s arg, Event.createThread s arg ∈ (Process.inject pid env lib verbose).snd →
        s = a := by
  cases hk : Module.fromName env.os "kernel32" with
  | error e => left; simp [Process.inject, hk]
  | ok k32 =>
    cases hres : Module.getProcAddress env.os k32 "LoadLibraryW" true with
    | error e => left; simp [Process.inject, hk, hres]
    | ok addr =>
      right
      have hcur : k32.processPid = env.os.current.pid := fromName_pid _ _ _ hk
      refine ⟨addr, ?_, ?_⟩
      · by_cases hpres : ModuleInjectedW env.target lib.ntFilename ≠ 0
        · simp [Process.inject, hk, hres, hpres, hcur]
        · cases halloc : env.allocResult <;>
            simp [Process.inject, hk, hres, hpres, hcur, halloc]
      · intro s arg hmem
        by_cases hpres : ModuleInjectedW env.target lib.ntFilename ≠ 0
        · simp [Process.inject, hk, hres, hpres] at hmem
        · cases halloc : env.allocResult with
          | none => simp [Process.inject, hk, hres, hpres, halloc] at hmem
          | some buf =>
            simp [Process.inject, hk, hres, hpres, halloc] at hmem
            exact (injectAfterAlloc_thread_start env lib addr buf
              ((lib.path.length + 1) * 2) s arg hmem).1

/-- Claim C5 counterexample: a concrete run in which `VirtualAllocEx` fails.
There are zero successful allocations, yet one deallocation attempt is still
issued: the `shared_ptr` owns the null result with the `VirtualFreeEx`
deleter, which runs during unwinding. This contradicts the claim that the
number of deallocation attempts equals the number of SUCCESSFUL allocations
on every execution. -/
theorem inject_failed_alloc_still_attempts_dealloc :
    countAllocSuccesses (Process.inject 2 envNoAlloc libFix false).snd = 0 ∧
    countDeallocs (Process.inject 2 envNoAlloc libFix false).snd = 1 ∧
    Event.dealloc 0 ∈ (Process.inject 2 envNoAlloc libFix false).snd :=
  ⟨by rfl, by rfl, by decide⟩

/-- Claim C5 as amended: on every execution of `Process::inject`, the number
of deallocation attempts equals the number of allocation ATTEMPTS (a failed
allocation also triggers one best-effort `VirtualFreeEx` on the null
address); and on every exit path reached after a successful allocation,
exactly one deallocation request is issued and it names the allocated
buffer. -/
theorem inject_dealloc_count_eq_allocAttempt_count
    (pid : Nat) (env : InjectEnv) (lib : Library) (verbose : Bool) :
    countDeallocs (Process.inject pid env lib verbose).snd =
      countAllocAttempts (Process.inject pid env lib verbose).snd ∧
    (∀ buf, env.allocResult = some buf →
      ∀ s, Event.alloc true s ∈ (Process.inject pid env lib verbose).snd →
        Event.dealloc buf ∈ (Process.inject pid env lib verbose).snd ∧
        countDeallocs (Process.inject pid env lib verbose).snd = 1) := by
  cases hk : Module.fromName env.os "kernel32" with
  | error e =>
    constructor
    · simp [Process.inject, hk, countDeallocs, countAllocAttempts]
    · intro buf hbuf s hmem
      simp [Process.inject, hk] at hmem
  | ok k32 =>
    cases hres : Module.getProcAddress env.os k32 "LoadLibraryW" true with
    | error e =>
      constructor
      · simp [Process.inject, hk, hres, countDeallocs, countAllocAttempts]
      · intro buf hbuf s hmem
        simp [Process.inject, hk, hres] at hmem
    | ok addr =>
      by_cases hpres : ModuleInjectedW env.target lib.ntFilename ≠ 0
      · constructor
        · simp [Process.inject, hk, hres, hpres, countDeallocs, countAllocAttempts,
            Event.isDealloc, Event.isAllocAttempt]
        · intro buf hbuf s hmem
          simp [Process.inject, hk, hres, hpres] at hmem
      · cases halloc : env.allocResult with
        | none =>
          constructor
          · simp [Process.inject, hk, hres, hpres, halloc, countDeallocs,
              countAllocAttempts, Event.isDealloc, Event.isAllocAttempt]
          · intro buf hbuf s hmem
            exact absurd hbuf (by simp)
        | some buf =>
          have hbody1 := injectAfterAlloc_no_alloc env lib addr buf ((lib.path.length + 1) * 2)
          have hbody2 := injectAfterAlloc_no_dealloc env lib addr buf ((lib.path.length + 1) * 2)
          simp only [countAllocAttempts, countDeallocs] at hbody1 hbody2
          constructor
          · simp only [Process.inject, hk, hres, hpres, halloc, countDeallocs,
              countAllocAttempts, ne_eq, not_false_iff, if_false, ite_false,
              List.countP_append, List.countP_cons, List.countP_nil]
            simp [Event.isDealloc, Event.isAllocAttempt, hbody1, hbody2]
          · intro buf2 hbuf s hmem
            have hb : buf = buf2 := by injection hbuf
            subst hb
            constructor
            · simp [Process.inject, hk, hres, hpres, halloc]
            · simp only [Process.inject, hk, hres, hpres, halloc, countDeallocs, ne_eq,
                not_false_iff, if_false, ite_false, List.countP_append, List.countP_cons,
                List.countP_nil]
              simp [Event.isDealloc, hbody2]

/-- Claim C5 (amended) witness: on the concrete successful run, the single
deallocation attempt names the allocated buffer 90000. -/
theorem inject_dealloc_count_witness :
    Event.dealloc 90000 ∈ (Process.inject 2 envRun libFix false).snd ∧
    countDeallocs (Process.inject 2 envRun libFix false).snd = 1 :=
  (inject_dealloc_count_eq_allocAttempt_count 2 envRun libFix false).2
    90000 rfl 30 (by decide)

/-- Claim C9: the remote buffer is allocated with size exactly
`(path length + 1) * sizeof(wchar_t)`; the remote write raises
`RemoteWriteFailure` unless the OS-reported byte count equals that size
exactly (no cache flush is attempted then), and an exact-length write
proceeds to the flush. -/
theorem inject_alloc_size_and_exact_write
    (pid : Nat) (env : InjectEnv) (lib : Library) (verbose : Bool)
    (k32 : Module) (addr buf : Nat)
    (hk : Module.fromName env.os "kernel32" = Except.ok k32)
    (hres : Module.getProcAddress env.os k32 "LoadLibraryW" true = Except.ok addr)
    (hnot : ModuleInjectedW env.target lib.ntFilename = 0)
    (halloc : env.allocResult = some buf) :
    Event.alloc true ((lib.path.length + 1) * 2) ∈ (Process.inject pid env lib verbose).snd ∧
    (∀ ok s, Event.alloc ok s ∈ (Process.inject pid env lib verbose).snd →
      s = (lib.path.length + 1) * 2) ∧
    (env.writeResult ≠ some ((lib.path.length + 1) * 2) →
      (Process.inject pid env lib verbose).fst = Except.error Failure.RemoteWriteFailure ∧
      ∀ b, Event.flushCache b ∉ (Process.inject pid env lib verbose).snd) ∧
    (env.writeResult = some ((lib.path.length + 1) * 2) →
      Event.flushCache env.flushOk ∈ (Process.inject pid env lib verbose).snd) := by
  have hbody1 := injectAfterAlloc_no_alloc env lib addr buf ((lib.path.length + 1) * 2)
  refine ⟨?_, ?_, ?_, ?_⟩
  · simp [Process.inject, hk, hres, hnot, halloc]
  · intro ok s hmem
    simp [Process.inject, hk, hres, hnot, halloc] at hmem
    rcases hmem with ⟨h1, h2⟩ | h
    · exact h2
    · exfalso
      rw [countAllocAttempts, List.countP_eq_zero] at hbody1
      have hcontra := hbody1 _ h
      simp [Event.isAllocAttempt] at hcontra
  · intro hw
    cases hwr : env.writeResult with
    | none =>
      constructor
      · simp [Process.inject, hk, hres, hnot, halloc, injectAfterAlloc, hwr]
      · intro b
        simp [Process.inject, hk, hres, hnot, halloc, injectAfterAlloc, hwr]
    | some n =>
      have hne : n ≠ (lib.path.length + 1) * 2 := by
        intro h; rw [hwr, h] at hw; exact hw rfl
      constructor
      · simp [Process.inject, hk, hres, hnot, halloc, injectAfterAlloc, hwr, hne]
      · intro b
        simp [Process.inject, hk, hres, hnot, halloc, injectAfterAlloc, hwr, hne]
  · intro hw
    have hfl := injectAfterAlloc_flush_attempted env lib addr buf ((lib.path.length + 1) * 2) hw
    simp [Process.inject, hk, hres, hnot, halloc]
    exact hfl

/-- Claim C9 witness: on the concrete fixture whose write reports only 10 of
the 30 bytes, inject raises `RemoteWriteFailure`, the allocation event has
size 30, and no cache flush is attempted. -/
theorem inject_alloc_size_and_exact_write_witness :
    Event.alloc true 30 ∈ (Process.inject 2 envShortWrite libFix false).snd ∧
    (Process.inject 2 envShortWrite libFix false).fst =
      Except.error Failure.RemoteWriteFailure ∧
    ∀ b, Event.flushCache b ∉ (Process.inject 2 envShortWrite libFix false).snd := by
  have h := inject_alloc_size_and_exact_write 2 envShortWrite libFix false
    ⟨"kernel32", 4096, 1⟩ 4352 90000 (by rfl) (by rfl) (by rfl) (by rfl)
  exact ⟨h.1, (h.2.2.1 (by decide)).1, (h.2.2.1 (by decide)).2⟩

end Injectory
